import Mathlib

/-!
Shallow embedding of the open-wegram-bot core handlers.

The repository contains two parallel source variants of the same core module
(one with English identifiers, one with Chinese identifiers) plus a thin
Cloudflare entry point.  Both variants are embedded here, faithfully to each
source file; remote Telegram API calls are modelled by an oracle giving the
behaviour of each successive outbound call, and each handler returns the
response it produces together with the list of outbound calls it issued.
JavaScript exceptions are modelled with `Except`: an uncaught exception is an
`Except.error`.
-/

namespace Wegram

/-- One inline-keyboard button, as read from or written into a Telegram
`reply_markup`.  `none` models a JavaScript `undefined` field. -/
structure InlineButton where
  text : String
  callback_data : Option String
  url : Option String
deriving DecidableEq, Repr

/-- A `reply_markup` object; only the `inline_keyboard` field is ever read
or written by the code. -/
structure ReplyMarkup where
  inline_keyboard : List (List InlineButton)
deriving DecidableEq, Repr

/-- A Telegram chat object; only the fields the code reads. -/
structure Chat where
  id : Int
  username : Option String
  first_name : Option String
  last_name : Option String
deriving DecidableEq, Repr

/-- The replied-to message (`message.reply_to_message`); the code only reads
its `reply_markup`. -/
structure RepliedMessage where
  reply_markup : Option ReplyMarkup
deriving DecidableEq, Repr

/-- An incoming Telegram message; only the fields the code reads. -/
structure Message where
  chat : Chat
  message_id : Int
  text : Option String
  reply_to_message : Option RepliedMessage
deriving DecidableEq, Repr

/-- A Telegram update payload; the code only tests/reads `update.message`. -/
structure Update where
  message : Option Message
deriving DecidableEq, Repr

/-- The parts of the inbound HTTP request the handlers read: the URL
components consumed through `new URL(request.url)`, the
`X-Telegram-Bot-Api-Secret-Token` header (`none` = header absent, so that
`headers.get` returns `null`), and the body.  `body = .error ()` models a
request body on which `request.json()` throws. -/
structure Request where
  protocol : String
  hostname : String
  pathname : String
  secretHeader : Option String
  body : Except Unit Update

/-- An HTTP response body: plain text, or the JSON object produced by
`jsonResponse` (always of shape `{success, message}`). -/
inductive Body where
  | text (s : String)
  | json (success : Bool) (message : String)
deriving DecidableEq, Repr

/-- An HTTP response: status code and body. -/
structure Response where
  status : Nat
  body : Body
deriving DecidableEq, Repr

/-- One outbound Telegram Bot API call, with the exact request body fields
the code sets. -/
inductive ApiCall where
  | setWebhook (token : String) (url : String) (allowed_updates : List String)
      (secret_token : String)
  | deleteWebhook (token : String)
  | copyMessage (token : String) (chat_id : Option Int) (from_chat_id : Int)
      (message_id : Int) (reply_markup : Option ReplyMarkup)
deriving DecidableEq, Repr

/-- Behaviour of one outbound remote call: either the platform answers
(`httpOk` = the fetch `Response.ok` flag, `resultOk` = the decoded body's
`ok` field, `description` = its `description`), or the call throws
(transport failure of `fetch`, or `response.json()` failing). -/
inductive RemoteBehavior where
  | respond (httpOk : Bool) (resultOk : Bool) (description : String)
  | fail (message : String)

/-- The behaviour of the nth outbound call made while handling one request. -/
def Oracle := Nat → RemoteBehavior

/-- Models JavaScript `parseInt(s)` for the inputs arising here: skip leading
whitespace, optional sign, then the longest prefix of decimal digits;
`none` models `NaN` (no digits, or a hexadecimal prefix is out of scope). -/
def jsParseInt (s : String) : Option Int :=
  let cs := s.toList.dropWhile Char.isWhitespace
  let signDigits : Int × List Char :=
    match cs with
    | '-' :: t => (-1, t)
    | '+' :: t => (1, t)
    | _ => (1, cs)
  let ds := signDigits.2.takeWhile Char.isDigit
  if ds.isEmpty then none
  else some (signDigits.1 * (ds.foldl (fun a c => a * 10 + (c.toNat - 48)) 0 : Nat))

/-- Models `parseInt` applied to a value that may be JavaScript `undefined`
(`parseInt(undefined)` is `NaN`). -/
def jsParseIntOpt : Option String → Option Int
  | none => none
  | some s => jsParseInt s

/-- JavaScript truthiness of a string-or-undefined value: `undefined` and the
empty string are falsy, every other string is truthy. -/
def strTruthy : Option String → Bool
  | none => false
  | some s => s ≠ ""

/-- `validateSecretToken` from the English-named core: length above 15 and
the three regex tests `[A-Z]`, `[a-z]`, `[0-9]`. -/
def validateSecretToken (token : String) : Bool :=
  decide (token.length > 15)
    && token.toList.any (fun c => decide ('A' ≤ c) && decide (c ≤ 'Z'))
    && token.toList.any (fun c => decide ('a' ≤ c) && decide (c ≤ 'z'))
    && token.toList.any (fun c => decide ('0' ≤ c) && decide (c ≤ '9'))

/-- `校验密钥` from the Chinese-named core variant (same checks). -/
def «校验密钥» (tok : String) : Bool :=
  decide (tok.length > 15)
    && tok.toList.any (fun c => decide ('A' ≤ c) && decide (c ≤ 'Z'))
    && tok.toList.any (fun c => decide ('a' ≤ c) && decide (c ≤ 'z'))
    && tok.toList.any (fun c => decide ('0' ≤ c) && decide (c ≤ '9'))

/-- Display name built in the fresh-inbound branch: `@username` when the
username is truthy, else the space-joined truthy first/last name fields. -/
def senderDisplayName (sender : Chat) : String :=
  if strTruthy sender.username then "@" ++ sender.username.getD ""
  else String.intercalate " "
    (([sender.first_name, sender.last_name].filterMap id).filter (fun s => s ≠ ""))

/-- The inline keyboard built by the local `copyMessage` helper of the
fresh-inbound branch: callback button always, URL and unlocked label only
`withUrl`. -/
def freshInlineKeyboard (withUrl : Bool) (senderName senderUid : String) :
    List (List InlineButton) :=
  if withUrl then
    [[{ text := "🔓 来自: " ++ senderName ++ " (" ++ senderUid ++ ")",
        callback_data := some senderUid,
        url := some ("tg://user?id=" ++ senderUid) }]]
  else
    [[{ text := "🔏 来自: " ++ senderName ++ " (" ++ senderUid ++ ")",
        callback_data := some senderUid,
        url := none }]]

/-- The `copyMessage` request issued by the fresh-inbound branch's local
helper. -/
def freshCopyCall (withUrl : Bool) (message : Message) (ownerUid botToken : String) :
    ApiCall :=
  let senderUid := toString message.chat.id
  ApiCall.copyMessage botToken (jsParseInt ownerUid) message.chat.id
    message.message_id
    (some ⟨freshInlineKeyboard withUrl (senderDisplayName message.chat) senderUid⟩)

/-- The characters remaining after the first occurrence of the (non-empty)
separator, or `none` when the separator does not occur. -/
def dropThroughSep (sep : List Char) : List Char → Option (List Char)
  | [] => none
  | c :: rest =>
    if sep.isPrefixOf (c :: rest) then some ((c :: rest).drop sep.length)
    else dropThroughSep sep rest

/-- The characters before the next occurrence of the (non-empty)
separator. -/
def takeUntilSep (sep : List Char) : List Char → List Char
  | [] => []
  | c :: rest =>
    if sep.isPrefixOf (c :: rest) then [] else c :: takeUntilSep sep rest

/-- Models JavaScript `u.split(sep)[1]` for a non-empty separator: the
segment between the first occurrence of `sep` and the following occurrence
(or the end of the string); `none` models the `undefined` element when
`sep` does not occur. -/
def jsSplitSecond (sep u : String) : Option String :=
  match dropThroughSep sep.toList u.toList with
  | none => none
  | some rest => some (String.mk (takeUntilSep sep.toList rest))

/-- Marker extraction of the owner-reply branch (lines reading
`inline_keyboard[0][0]`): try `callback_data`, and when falsy fall back to
`url.split('tg://user?id=')[1]`.  `Except.error` models the `TypeError`
thrown when `url` is `undefined`; the inner `Option` models the `undefined`
produced when the separator does not occur in the URL. -/
def extractSenderUid (btn : InlineButton) : Except Unit (Option String) :=
  let fromUrl : Except Unit (Option String) :=
    match btn.url with
    | none => .error ()
    | some u => .ok (jsSplitSecond "tg://user?id=" u)
  match btn.callback_data with
  | some s => if s = "" then fromUrl else .ok (some s)
  | none => fromUrl

/-- The code of `handleWebhook`'s `try` block from the `/start` check on
(run when the owner-reply branch is not taken): suppress `/start`, else
relay with the URL-bearing marker, falling back once without the URL when
the first call's response has `ok` false. -/
def webhookNonReply (message : Message) (ownerUid botToken : String)
    (oracle : Oracle) : Except (List ApiCall) (Response × List ApiCall) :=
  if message.text = some "/start" then .ok (⟨200, .text "成功"⟩, [])
  else
    let call1 := freshCopyCall true message ownerUid botToken
    match oracle 0 with
    | .fail _ => .error [call1]
    | .respond httpOk _ _ =>
      if httpOk then .ok (⟨200, .text "成功"⟩, [call1])
      else
        let call2 := freshCopyCall false message ownerUid botToken
        match oracle 1 with
        | .fail _ => .error [call1, call2]
        | .respond _ _ _ => .ok (⟨200, .text "成功"⟩, [call1, call2])

/-- The body of `handleWebhook`'s `try` block.  `Except.error calls` models a
throw reaching the `catch`, carrying the calls already issued. -/
def webhookTry (message : Message) (ownerUid botToken : String) (oracle : Oracle) :
    Except (List ApiCall) (Response × List ApiCall) :=
  let nonReply := webhookNonReply message ownerUid botToken oracle
  match message.reply_to_message with
  | some reply =>
    if toString message.chat.id = ownerUid then
      match reply.reply_markup with
      | some rm =>
        match rm.inline_keyboard.head? with
        | some row =>
          match row.head? with
          | none => .error []
          | some btn =>
            match extractSenderUid btn with
            | .error _ => .error []
            | .ok senderUid =>
              let call := ApiCall.copyMessage botToken (jsParseIntOpt senderUid)
                message.chat.id message.message_id none
              match oracle 0 with
              | .fail _ => .error [call]
              | .respond _ _ _ => .ok (⟨200, .text "成功"⟩, [call])
        | none => .ok (⟨200, .text "成功"⟩, [])
      | none => .ok (⟨200, .text "成功"⟩, [])
    else nonReply
  | none => nonReply

/-- `handleWebhook` from the English-named core.  The secret-token header is
compared first; `request.json()` runs OUTSIDE the `try` block, so a body
that fails to parse propagates as `Except.error`; everything after the
no-message check runs inside the `try`, whose `catch` produces the generic
500 response. -/
def handleWebhook (request : Request) (ownerUid botToken secretToken : String)
    (oracle : Oracle) : Except Unit (Response × List ApiCall) :=
  if request.secretHeader ≠ some secretToken then
    .ok (⟨401, .text "未授权"⟩, [])
  else
    match request.body with
    | .error _ => .error ()
    | .ok update =>
      match update.message with
      | none => .ok (⟨200, .text "成功"⟩, [])
      | some message =>
        match webhookTry message ownerUid botToken oracle with
        | .ok r => .ok r
        | .error calls => .ok (⟨500, .text "内部服务器错误"⟩, calls)

/-- `handleInstall` from the English-named core: gate on
`validateSecretToken`, build the webhook URL from
`url.protocol`/`url.hostname` (the protocol component keeps its trailing
colon, as `new URL(...).protocol` does), call `setWebhook`, and map the
three outcomes. -/
def handleInstall (request : Request) (ownerUid botToken pre secretToken : String)
    (oracle : Oracle) : Response × List ApiCall :=
  if !validateSecretToken secretToken then
    (⟨400, .json false "密钥令牌必须至少包含16个字符，且包含大写字母、小写字母和数字。"⟩, [])
  else
    let baseUrl := request.protocol ++ "//" ++ request.hostname
    let webhookUrl := baseUrl ++ "/" ++ pre ++ "/webhook/" ++ ownerUid ++ "/" ++ botToken
    let call := ApiCall.setWebhook botToken webhookUrl ["message"] secretToken
    match oracle 0 with
    | .fail msg => (⟨500, .json false ("安装 webhook 时出错：" ++ msg)⟩, [call])
    | .respond _ resultOk desc =>
      if resultOk then (⟨200, .json true "Webhook 安装成功。"⟩, [call])
      else (⟨400, .json false ("Webhook 安装失败：" ++ desc)⟩, [call])

/-- `handleUninstall` from the English-named core. -/
def handleUninstall (botToken secretToken : String) (oracle : Oracle) :
    Response × List ApiCall :=
  if !validateSecretToken secretToken then
    (⟨400, .json false "密钥令牌必须至少包含16个字符，且包含大写字母、小写字母和数字。"⟩, [])
  else
    let call := ApiCall.deleteWebhook botToken
    match oracle 0 with
    | .fail msg => (⟨500, .json false ("卸载 webhook 时出错：" ++ msg)⟩, [call])
    | .respond _ resultOk desc =>
      if resultOk then (⟨200, .json true "Webhook 卸载成功。"⟩, [call])
      else (⟨400, .json false ("Webhook 卸载失败：" ++ desc)⟩, [call])

/-- Models matching the pathname against `^/<pre>/<kind>/([^/]+)/([^/]+)$`,
with the route prefix taken literally (prefixes containing regex
metacharacters are out of scope). -/
def matchTwoSegPath (pre kind path : String) : Option (String × String) :=
  let head := "/" ++ pre ++ "/" ++ kind ++ "/"
  if head.isPrefixOf path then
    match (path.drop head.length).splitOn "/" with
    | [a, b] => if a ≠ "" && b ≠ "" then some (a, b) else none
    | _ => none
  else none

/-- Models matching the pathname against `^/<pre>/<kind>/([^/]+)$`. -/
def matchOneSegPath (pre kind path : String) : Option String :=
  let head := "/" ++ pre ++ "/" ++ kind ++ "/"
  if head.isPrefixOf path then
    match (path.drop head.length).splitOn "/" with
    | [a] => if a ≠ "" then some a else none
    | _ => none
  else none

/-- The process-wide configuration: URL route prefix and shared secret
(`prefix`/`secretToken` in the source; the entry point defaults them to
`"public"` and `""`). -/
structure Config where
  pre : String
  secretToken : String

/-- `handleRequest` from the English-named core: dispatch on the pathname,
install pattern first, then uninstall, then webhook, else 404. -/
def handleRequest (request : Request) (config : Config) (oracle : Oracle) :
    Except Unit (Response × List ApiCall) :=
  let path := request.pathname
  match matchTwoSegPath config.pre "install" path with
  | some (uid, tok) =>
    .ok (handleInstall request uid tok config.pre config.secretToken oracle)
  | none =>
  match matchOneSegPath config.pre "uninstall" path with
  | some tok => .ok (handleUninstall tok config.secretToken oracle)
  | none =>
  match matchTwoSegPath config.pre "webhook" path with
  | some (uid, tok) => handleWebhook request uid tok config.secretToken oracle
  | none => .ok (⟨404, .text "未找到"⟩, [])

/-- Marker extraction of the owner-reply branch of `处理Webhook`
(the Chinese-named core variant, lines reading `inline_keyboard[0][0]`). -/
def «提取发送者UID» (btn : InlineButton) : Except Unit (Option String) :=
  let fromUrl : Except Unit (Option String) :=
    match btn.url with
    | none => .error ()
    | some u => .ok (jsSplitSecond "tg://user?id=" u)
  match btn.callback_data with
  | some s => if s = "" then fromUrl else .ok (some s)
  | none => fromUrl

/-- The inline keyboard (`按钮组`) built by the `复制消息` helper in the
Chinese-named core variant. -/
def «按钮组» (withUrl : Bool) (senderName senderUid : String) :
    List (List InlineButton) :=
  if withUrl then
    [[{ text := "🔓 来自: " ++ senderName ++ " (" ++ senderUid ++ ")",
        callback_data := some senderUid,
        url := some ("tg://user?id=" ++ senderUid) }]]
  else
    [[{ text := "🔏 来自: " ++ senderName ++ " (" ++ senderUid ++ ")",
        callback_data := some senderUid,
        url := none }]]

/-- The `copyMessage` request issued by the `复制消息` helper in the
Chinese-named core variant. -/
def «复制消息调用» (withUrl : Bool) (message : Message) (ownerUid botToken : String) :
    ApiCall :=
  let senderUid := toString message.chat.id
  ApiCall.copyMessage botToken (jsParseInt ownerUid) message.chat.id
    message.message_id
    (some ⟨«按钮组» withUrl (senderDisplayName message.chat) senderUid⟩)

/-- The non-reply part of `处理Webhook`'s `try` block (Chinese-named core
variant). -/
def «处理非回复消息» (message : Message) (ownerUid botToken : String)
    (oracle : Oracle) : Except (List ApiCall) (Response × List ApiCall) :=
  if message.text = some "/start" then .ok (⟨200, .text "OK"⟩, [])
  else
    let call1 := «复制消息调用» true message ownerUid botToken
    match oracle 0 with
    | .fail _ => .error [call1]
    | .respond httpOk _ _ =>
      if httpOk then .ok (⟨200, .text "OK"⟩, [call1])
      else
        let call2 := «复制消息调用» false message ownerUid botToken
        match oracle 1 with
        | .fail _ => .error [call1, call2]
        | .respond _ _ _ => .ok (⟨200, .text "OK"⟩, [call1, call2])

/-- The body of `处理Webhook`'s `try` block (Chinese-named core variant). -/
def «处理Webhook主体» (message : Message) (ownerUid botToken : String)
    (oracle : Oracle) : Except (List ApiCall) (Response × List ApiCall) :=
  let nonReply := «处理非回复消息» message ownerUid botToken oracle
  match message.reply_to_message with
  | some reply =>
    if toString message.chat.id = ownerUid then
      match reply.reply_markup with
      | some rm =>
        match rm.inline_keyboard.head? with
        | some row =>
          match row.head? with
          | none => .error []
          | some btn =>
            match «提取发送者UID» btn with
            | .error _ => .error []
            | .ok senderUid =>
              let call := ApiCall.copyMessage botToken (jsParseIntOpt senderUid)
                message.chat.id message.message_id none
              match oracle 0 with
              | .fail _ => .error [call]
              | .respond _ _ _ => .ok (⟨200, .text "OK"⟩, [call])
        | none => .ok (⟨200, .text "OK"⟩, [])
      | none => .ok (⟨200, .text "OK"⟩, [])
    else nonReply
  | none => nonReply

/-- `处理Webhook` from the Chinese-named core variant: same control flow as
`handleWebhook`, with `OK` as its success text. -/
def «处理Webhook» (request : Request) (ownerUid botToken secretToken : String)
    (oracle : Oracle) : Except Unit (Response × List ApiCall) :=
  if request.secretHeader ≠ some secretToken then
    .ok (⟨401, .text "未授权"⟩, [])
  else
    match request.body with
    | .error _ => .error ()
    | .ok update =>
      match update.message with
      | none => .ok (⟨200, .text "OK"⟩, [])
      | some message =>
        match «处理Webhook主体» message ownerUid botToken oracle with
        | .ok r => .ok r
        | .error calls => .ok (⟨500, .text "内部服务器错误"⟩, calls)

/-- `安装Webhook` from the Chinese-named core variant. -/
def «安装Webhook» (request : Request) (ownerUid botToken pre secretToken : String)
    (oracle : Oracle) : Response × List ApiCall :=
  if !«校验密钥» secretToken then
    (⟨400, .json false "密钥必须至少16个字符，并且包含大写字母、小写字母和数字。"⟩, [])
  else
    let baseUrl := request.protocol ++ "//" ++ request.hostname
    let webhookUrl := baseUrl ++ "/" ++ pre ++ "/webhook/" ++ ownerUid ++ "/" ++ botToken
    let call := ApiCall.setWebhook botToken webhookUrl ["message"] secretToken
    match oracle 0 with
    | .fail msg => (⟨500, .json false ("安装 webhook 出错：" ++ msg)⟩, [call])
    | .respond _ resultOk desc =>
      if resultOk then (⟨200, .json true "Webhook 安装成功。"⟩, [call])
      else (⟨400, .json false ("Webhook 安装失败：" ++ desc)⟩, [call])

/-- `卸载Webhook` from the Chinese-named core variant. -/
def «卸载Webhook» (botToken secretToken : String) (oracle : Oracle) :
    Response × List ApiCall :=
  if !«校验密钥» secretToken then
    (⟨400, .json false "密钥必须至少16个字符，并且包含大写字母、小写字母和数字。"⟩, [])
  else
    let call := ApiCall.deleteWebhook botToken
    match oracle 0 with
    | .fail msg => (⟨500, .json false ("卸载 webhook 出错：" ++ msg)⟩, [call])
    | .respond _ resultOk desc =>
      if resultOk then (⟨200, .json true "Webhook 卸载成功。"⟩, [call])
      else (⟨400, .json false ("Webhook 卸载失败：" ++ desc)⟩, [call])

/-- `处理请求` from the Chinese-named core variant: same three patterns in
the same priority order as `handleRequest` (the pattern literals in both
sources are character-identical, so the path matchers are shared). -/
def «处理请求» (request : Request) (config : Config) (oracle : Oracle) :
    Except Unit (Response × List ApiCall) :=
  let path := request.pathname
  match matchTwoSegPath config.pre "install" path with
  | some (uid, tok) =>
    .ok («安装Webhook» request uid tok config.pre config.secretToken oracle)
  | none =>
  match matchOneSegPath config.pre "uninstall" path with
  | some tok => .ok («卸载Webhook» tok config.secretToken oracle)
  | none =>
  match matchTwoSegPath config.pre "webhook" path with
  | some (uid, tok) => «处理Webhook» request uid tok config.secretToken oracle
  | none => .ok (⟨404, .text "未找到"⟩, [])

/-! ## Helper lemmas -/

/-- Every `.ok` result of the fresh-inbound code carries the 200 success
response. -/
theorem webhookNonReply_ok_resp (message : Message) (ownerUid botToken : String)
    (oracle : Oracle) (r : Response × List ApiCall)
    (h : (webhookNonReply message ownerUid botToken oracle) = .ok r) :
    r.1 = ⟨200, Body.text "成功"⟩ := by
  unfold webhookNonReply at h
  repeat' split at h
  all_goals first
    | exact Except.noConfusion h
    | exact (Except.ok.inj h) ▸ rfl

/-- A `/start` text short-circuits the fresh-inbound code with the success
response and no calls. -/
theorem webhookNonReply_start (message : Message) (ownerUid botToken : String)
    (oracle : Oracle) (hStart : message.text = some "/start") :
    webhookNonReply message ownerUid botToken oracle =
      .ok (⟨200, Body.text "成功"⟩, []) := by
  unfold webhookNonReply
  simp [hStart]

/-- Every `.ok` result of `handleWebhook`'s try block carries the 200
success response. -/
theorem webhookTry_ok_resp (message : Message) (ownerUid botToken : String)
    (oracle : Oracle) (r : Response × List ApiCall)
    (h : (webhookTry message ownerUid botToken oracle) = .ok r) :
    r.1 = ⟨200, Body.text "成功"⟩ := by
  unfold webhookTry at h
  repeat' split at h
  all_goals first
    | exact Except.noConfusion h
    | exact (Except.ok.inj h) ▸ rfl
    | exact webhookNonReply_ok_resp message ownerUid botToken oracle r h

/-- With a matching secret header, every response `handleWebhook` actually
returns (as opposed to an uncaught exception) is either the 200 success or
the generic 500. -/
theorem handleWebhook_ok_cases (request : Request)
    (ownerUid botToken secretToken : String) (oracle : Oracle)
    (r : Response × List ApiCall)
    (hAuth : request.secretHeader = some secretToken)
    (hr : handleWebhook request ownerUid botToken secretToken oracle = .ok r) :
    r.1 = ⟨200, Body.text "成功"⟩ ∨ r.1 = ⟨500, Body.text "内部服务器错误"⟩ := by
  unfold handleWebhook at hr
  rw [if_neg (by simp [hAuth])] at hr
  match hb : request.body with
  | .error e =>
    rw [hb] at hr
    exact Except.noConfusion hr
  | .ok update =>
    rw [hb] at hr
    simp only at hr
    match hm : update.message with
    | none =>
      simp only [hm, Except.ok.injEq] at hr
      subst hr
      left; rfl
    | some message =>
      simp only [hm] at hr
      match ht : webhookTry message ownerUid botToken oracle with
      | .ok r' =>
        simp only [ht, Except.ok.injEq] at hr
        subst hr
        left
        exact webhookTry_ok_resp message ownerUid botToken oracle r' ht
      | .error calls =>
        simp only [ht, Except.ok.injEq] at hr
        subst hr
        right; rfl

/-! ## C7 -/

/-- C7: `validateSecretToken` returns true iff the token is longer than 15
characters and contains an uppercase ASCII letter, a lowercase ASCII letter
and a decimal digit. -/
theorem C7_validateSecretToken_spec (token : String) :
    validateSecretToken token = true ↔
      (token.length > 15 ∧
       (∃ c ∈ token.toList, 'A' ≤ c ∧ c ≤ 'Z') ∧
       (∃ c ∈ token.toList, 'a' ≤ c ∧ c ≤ 'z') ∧
       (∃ c ∈ token.toList, '0' ≤ c ∧ c ≤ '9')) := by
  simp only [validateSecretToken, Bool.and_eq_true, decide_eq_true_eq,
    List.any_eq_true]
  tauto

/-! ## C5 -/

/-- C5: with the shared secret left at its default empty string, a request
carrying an empty secret-token header — craftable without knowing any
secret — passes the authentication gate of `handleWebhook` and is processed
(200, not 401). -/
theorem C5_empty_secret_bypass :
    handleWebhook ⟨"https:", "h", "/p", some "", .ok ⟨none⟩⟩ "99" "tok" ""
      (fun _ => .respond true true "") = .ok (⟨200, Body.text "成功"⟩, []) := by
  rfl

/-! ## C4 -/

/-- C4: webhook-delivery authentication is exact string equality of the
secret-token header against the configured secret: any mismatch (including
an absent header) yields a 401 with zero remote calls, and a 401 is never
produced when the header matches. -/
theorem C4_webhook_auth (request : Request) (ownerUid botToken secretToken : String)
    (oracle : Oracle) :
    (request.secretHeader ≠ some secretToken →
      handleWebhook request ownerUid botToken secretToken oracle =
        .ok (⟨401, Body.text "未授权"⟩, [])) ∧
    (request.secretHeader = some secretToken →
      ∀ r : Response × List ApiCall,
        handleWebhook request ownerUid botToken secretToken oracle = .ok r →
        r.1.status ≠ 401) := by
  constructor
  · intro h
    simp [handleWebhook, h]
  · intro h r hr
    rcases handleWebhook_ok_cases request ownerUid botToken secretToken oracle r h
      hr with h1 | h1 <;> rw [h1] <;> decide

/-- Closed instance of C4 at a concrete mismatching request. -/
theorem C4_webhook_auth_witness :
    ((⟨"https:", "h", "/p", some "WRONG", .ok ⟨none⟩⟩ : Request).secretHeader ≠
        some "sec") ∧
    handleWebhook ⟨"https:", "h", "/p", some "WRONG", .ok ⟨none⟩⟩ "99" "tok" "sec"
        (fun _ => .respond true true "") = .ok (⟨401, Body.text "未授权"⟩, []) := by
  refine ⟨by decide, ?_⟩
  exact (C4_webhook_auth ⟨"https:", "h", "/p", some "WRONG", .ok ⟨none⟩⟩ "99" "tok"
    "sec" (fun _ => .respond true true "")).1 (by decide)

/-! ## C8 -/

/-- C8: when secret validation passes, `handleInstall` registers exactly the
callback URL scheme + "//" + host + `/<pre>/webhook/<ownerUid>/<botToken>`
via one `setWebhook` call, with no query and no encoding of the
credential. -/
theorem C8_install_webhook_url (request : Request)
    (ownerUid botToken pre secretToken : String) (oracle : Oracle)
    (h : validateSecretToken secretToken = true) :
    (handleInstall request ownerUid botToken pre secretToken oracle).2 =
      [ApiCall.setWebhook botToken
        (request.protocol ++ "//" ++ request.hostname ++ "/" ++ pre ++
          "/webhook/" ++ ownerUid ++ "/" ++ botToken)
        ["message"] secretToken] := by
  unfold handleInstall
  rw [h]
  simp only [Bool.not_true, Bool.false_eq_true, if_false]
  cases oracle 0 with
  | fail m => simp [String.append_assoc]
  | respond a b c =>
    dsimp only
    split <;> simp [String.append_assoc]

/-- Closed instance of C8 with a concrete request and valid secret. -/
theorem C8_install_webhook_url_witness :
    validateSecretToken "Abcdefghijklmno1" = true ∧
    (handleInstall ⟨"https:", "ex.com", "/p", none, .ok ⟨none⟩⟩ "42" "TOK" "public"
        "Abcdefghijklmno1" (fun _ => .respond true true "")).2 =
      [ApiCall.setWebhook "TOK" "https://ex.com/public/webhook/42/TOK" ["message"]
        "Abcdefghijklmno1"] := by
  refine ⟨by decide, ?_⟩
  have := C8_install_webhook_url ⟨"https:", "ex.com", "/p", none, .ok ⟨none⟩⟩ "42"
    "TOK" "public" "Abcdefghijklmno1" (fun _ => .respond true true "") (by decide)
  simpa using this

/-! ## C9 -/

/-- C9: an authenticated update that does not take the owner-reply branch and
whose text is exactly `/start` gets a 200 success with zero remote calls. -/
theorem C9_start_suppressed (request : Request)
    (ownerUid botToken secretToken : String) (oracle : Oracle)
    (update : Update) (message : Message)
    (hAuth : request.secretHeader = some secretToken)
    (hBody : request.body = .ok update)
    (hMsg : update.message = some message)
    (hNotReply : message.reply_to_message = none ∨
      toString message.chat.id ≠ ownerUid)
    (hStart : message.text = some "/start") :
    handleWebhook request ownerUid botToken secretToken oracle =
      .ok (⟨200, Body.text "成功"⟩, []) := by
  have htry : webhookTry message ownerUid botToken oracle =
      .ok (⟨200, Body.text "成功"⟩, []) := by
    unfold webhookTry
    rcases hNotReply with hn | hn
    · simp only [hn]
      exact webhookNonReply_start message ownerUid botToken oracle hStart
    · match hr : message.reply_to_message with
      | none => exact webhookNonReply_start message ownerUid botToken oracle hStart
      | some reply =>
        simp only [if_neg hn]
        exact webhookNonReply_start message ownerUid botToken oracle hStart
  unfold handleWebhook
  rw [if_neg (by simp [hAuth]), hBody]
  simp only [hMsg, htry]

/-- Closed instance of C9 at a concrete `/start` update. -/
theorem C9_start_suppressed_witness :
    handleWebhook ⟨"https:", "h", "/p", some "sec",
        .ok ⟨some ⟨⟨123, none, none, none⟩, 9, some "/start", none⟩⟩⟩ "99" "tok"
      "sec" (fun _ => .respond true true "") = .ok (⟨200, Body.text "成功"⟩, []) := by
  exact C9_start_suppressed _ "99" "tok" "sec" _ _ _ rfl rfl rfl (Or.inl rfl) rfl

/-! ## C1 -/

/-- C1: an owner reply whose replied-to message's first inline element
encodes sender `"555"` — via a nonempty callback token, or, the token being
absent or empty, via the deep-link URL suffix after `tg://user?id=` —
produces exactly one `copyMessage` call with `chat_id = 555` and no reply
markup attached, and a 200 success response. -/
theorem C1_owner_reply_relay (request : Request)
    (ownerUid botToken secretToken : String) (oracle : Oracle)
    (update : Update) (message : Message) (reply : RepliedMessage)
    (rm : ReplyMarkup) (btn : InlineButton) (row : List InlineButton)
    (hAuth : request.secretHeader = some secretToken)
    (hBody : request.body = .ok update)
    (hMsg : update.message = some message)
    (hReply : message.reply_to_message = some reply)
    (hOwner : toString message.chat.id = ownerUid)
    (hRm : reply.reply_markup = some rm)
    (hKb : rm.inline_keyboard.head? = some (btn :: row))
    (hMarker : btn.callback_data = some "555" ∨
      (strTruthy btn.callback_data = false ∧ btn.url = some "tg://user?id=555"))
    (hCall : ∃ a b c, oracle 0 = .respond a b c) :
    handleWebhook request ownerUid botToken secretToken oracle =
      .ok (⟨200, Body.text "成功"⟩,
        [ApiCall.copyMessage botToken (some 555) message.chat.id
          message.message_id none]) := by
  obtain ⟨a, b, c, hO⟩ := hCall
  have hExtract : extractSenderUid btn = .ok (some "555") := by
    unfold extractSenderUid
    rcases hMarker with hcb | ⟨hcb, hurl⟩
    · simp [hcb]
    · match hc : btn.callback_data with
      | none =>
        simp only [hurl]
        norm_num
        decide
      | some s =>
        rw [hc] at hcb
        have hs : s = "" := by simpa [strTruthy] using hcb
        subst hs
        simp only [hurl, if_pos rfl]
        norm_num
        decide
  have hp : jsParseIntOpt (some "555") = some 555 := by decide
  have htry : webhookTry message ownerUid botToken oracle =
      .ok (⟨200, Body.text "成功"⟩,
        [ApiCall.copyMessage botToken (some 555) message.chat.id
          message.message_id none]) := by
    unfold webhookTry
    simp only [hReply, if_pos hOwner, hRm, hKb, List.head?_cons, hExtract, hp, hO]
  unfold handleWebhook
  rw [if_neg (by simp [hAuth]), hBody]
  simp only [hMsg, htry]

/-- Closed instance of C1: concrete owner reply with the callback-token
marker `"555"`. -/
theorem C1_owner_reply_relay_witness :
    handleWebhook ⟨"https:", "h", "/p", some "sec",
        .ok ⟨some ⟨⟨99, none, none, none⟩, 7, some "hi",
          some ⟨some ⟨[[⟨"x", some "555", none⟩]]⟩⟩⟩⟩⟩ "99" "tok" "sec"
      (fun _ => .respond true true "") =
      .ok (⟨200, Body.text "成功"⟩,
        [ApiCall.copyMessage "tok" (some 555) 99 7 none]) := by
  exact C1_owner_reply_relay
    ⟨"https:", "h", "/p", some "sec",
      .ok ⟨some ⟨⟨99, none, none, none⟩, 7, some "hi",
        some ⟨some ⟨[[⟨"x", some "555", none⟩]]⟩⟩⟩⟩⟩
    "99" "tok" "sec" (fun _ => .respond true true "")
    ⟨some ⟨⟨99, none, none, none⟩, 7, some "hi",
      some ⟨some ⟨[[⟨"x", some "555", none⟩]]⟩⟩⟩⟩
    ⟨⟨99, none, none, none⟩, 7, some "hi",
      some ⟨some ⟨[[⟨"x", some "555", none⟩]]⟩⟩⟩
    ⟨some ⟨[[⟨"x", some "555", none⟩]]⟩⟩
    ⟨[[⟨"x", some "555", none⟩]]⟩
    ⟨"x", some "555", none⟩ []
    rfl rfl rfl rfl (by decide) rfl rfl (Or.inl rfl) ⟨true, true, "", rfl⟩

/-! ## C2 -/

/-- C2: in the fresh-inbound branch, when the first relay attempt (URL field
present, unlocked-glyph label) reports `ok:false`, exactly one fallback
call is made, with no URL field and the locked-glyph label, and its outcome
is accepted unconditionally; when the first attempt reports `ok:true`, no
fallback call is made. -/
theorem C2_fresh_inbound_fallback (request : Request)
    (ownerUid botToken secretToken : String) (oracle : Oracle)
    (update : Update) (message : Message)
    (hAuth : request.secretHeader = some secretToken)
    (hBody : request.body = .ok update)
    (hMsg : update.message = some message)
    (hNotReply : message.reply_to_message = none ∨
      toString message.chat.id ≠ ownerUid)
    (hNotStart : message.text ≠ some "/start") :
    (∀ r d, oracle 0 = .respond false r d →
      ∀ h2 r2 d2, oracle 1 = .respond h2 r2 d2 →
      handleWebhook request ownerUid botToken secretToken oracle =
        .ok (⟨200, Body.text "成功"⟩,
          [ApiCall.copyMessage botToken (jsParseInt ownerUid) message.chat.id
            message.message_id (some ⟨[[{
              text := "🔓 来自: " ++ senderDisplayName message.chat ++ " (" ++
                toString message.chat.id ++ ")",
              callback_data := some (toString message.chat.id),
              url := some ("tg://user?id=" ++ toString message.chat.id) }]]⟩),
           ApiCall.copyMessage botToken (jsParseInt ownerUid) message.chat.id
            message.message_id (some ⟨[[{
              text := "🔏 来自: " ++ senderDisplayName message.chat ++ " (" ++
                toString message.chat.id ++ ")",
              callback_data := some (toString message.chat.id),
              url := none }]]⟩)])) ∧
    (∀ r d, oracle 0 = .respond true r d →
      handleWebhook request ownerUid botToken secretToken oracle =
        .ok (⟨200, Body.text "成功"⟩,
          [ApiCall.copyMessage botToken (jsParseInt ownerUid) message.chat.id
            message.message_id (some ⟨[[{
              text := "🔓 来自: " ++ senderDisplayName message.chat ++ " (" ++
                toString message.chat.id ++ ")",
              callback_data := some (toString message.chat.id),
              url := some ("tg://user?id=" ++ toString message.chat.id) }]]⟩)])) := by
  have hroute : webhookTry message ownerUid botToken oracle =
      webhookNonReply message ownerUid botToken oracle := by
    unfold webhookTry
    rcases hNotReply with hn | hn
    · simp only [hn]
    · match hr : message.reply_to_message with
      | none => rfl
      | some reply => simp only [if_neg hn]
  constructor
  · intro r d h0 h2 r2 d2 h1
    have hnon : webhookNonReply message ownerUid botToken oracle =
        .ok (⟨200, Body.text "成功"⟩,
          [freshCopyCall true message ownerUid botToken,
           freshCopyCall false message ownerUid botToken]) := by
      unfold webhookNonReply
      rw [if_neg hNotStart]
      simp only [h0, h1, if_neg (Bool.false_ne_true)]
    unfold handleWebhook
    rw [if_neg (by simp [hAuth]), hBody]
    simp only [hMsg, hroute, hnon]
    unfold freshCopyCall freshInlineKeyboard
    simp
  · intro r d h0
    have hnon : webhookNonReply message ownerUid botToken oracle =
        .ok (⟨200, Body.text "成功"⟩,
          [freshCopyCall true message ownerUid botToken]) := by
      unfold webhookNonReply
      rw [if_neg hNotStart]
      simp only [h0, if_true]
    unfold handleWebhook
    rw [if_neg (by simp [hAuth]), hBody]
    simp only [hMsg, hroute, hnon]
    unfold freshCopyCall freshInlineKeyboard
    simp

/-- Closed instance of C2, fallback case: first call mocked `ok:false`. -/
theorem C2_fresh_inbound_fallback_witness :
    handleWebhook ⟨"https:", "h", "/p", some "sec",
        .ok ⟨some ⟨⟨123, some "al", none, none⟩, 9, some "hello", none⟩⟩⟩ "99"
      "tok" "sec"
      (fun n => if n = 0 then .respond false true "" else .respond true true "") =
      .ok (⟨200, Body.text "成功"⟩,
        [ApiCall.copyMessage "tok" (some 99) 123 9 (some ⟨[[{
            text := "🔓 来自: @al (123)", callback_data := some "123",
            url := some "tg://user?id=123" }]]⟩),
         ApiCall.copyMessage "tok" (some 99) 123 9 (some ⟨[[{
            text := "🔏 来自: @al (123)", callback_data := some "123",
            url := none }]]⟩)]) := by
  have := (C2_fresh_inbound_fallback
    ⟨"https:", "h", "/p", some "sec",
      .ok ⟨some ⟨⟨123, some "al", none, none⟩, 9, some "hello", none⟩⟩⟩ "99" "tok"
    "sec" (fun n => if n = 0 then .respond false true "" else .respond true true "")
    _ _ rfl rfl rfl (Or.inl rfl) (by decide)).1 true "" rfl true true "" rfl
  simpa using this

/-! ## C3 (corrected): the step-2 body parse is NOT inside the try block -/

/-- C3 counterexample: an authenticated delivery whose body fails to parse is
not converted to any 500-class response — `request.json()` runs before the
`try` block, so the exception propagates out of `handleWebhook`. -/
theorem C3_counterexample :
    handleWebhook ⟨"https:", "h", "/p", some "sec", .error ()⟩ "99" "tok" "sec"
      (fun _ => .respond true true "") = .error () := rfl

/-- C3 amended: unexpected errors in steps 3–5 are caught and converted to
the generic 500 (any produced response is the 200 success or that 500,
leaking no step detail), but an error in the step-2 body parse propagates
uncaught out of `handleWebhook`. -/
theorem C3_amended_catch_scope (request : Request)
    (ownerUid botToken secretToken : String) (oracle : Oracle)
    (hAuth : request.secretHeader = some secretToken) :
    (request.body = .error () →
      handleWebhook request ownerUid botToken secretToken oracle = .error ()) ∧
    (∀ update, request.body = .ok update →
      ∃ r : Response × List ApiCall,
        handleWebhook request ownerUid botToken secretToken oracle = .ok r ∧
        (r.1 = ⟨200, Body.text "成功"⟩ ∨
          r.1 = ⟨500, Body.text "内部服务器错误"⟩)) := by
  constructor
  · intro hb
    unfold handleWebhook
    rw [if_neg (by simp [hAuth]), hb]
  · intro update hb
    unfold handleWebhook
    rw [if_neg (by simp [hAuth]), hb]
    simp only
    match hm : update.message with
    | none =>
      simp only [hm]
      exact ⟨_, rfl, Or.inl rfl⟩
    | some message =>
      simp only [hm]
      match ht : webhookTry message ownerUid botToken oracle with
      | .ok r' => exact ⟨r', rfl, Or.inl (webhookTry_ok_resp _ _ _ _ _ ht)⟩
      | .error calls => exact ⟨_, rfl, Or.inr rfl⟩

/-- Closed instance of the amended C3 at a parse-failing body. -/
theorem C3_amended_catch_scope_witness :
    ((⟨"https:", "h", "/p", some "sec", .error ()⟩ : Request).secretHeader =
      some "sec") ∧
    handleWebhook ⟨"https:", "h", "/p", some "sec", .error ()⟩ "99" "tok" "sec"
      (fun _ => .respond false true "x") = .error () := by
  refine ⟨rfl, ?_⟩
  exact (C3_amended_catch_scope ⟨"https:", "h", "/p", some "sec", .error ()⟩ "99"
    "tok" "sec" (fun _ => .respond false true "x") rfl).1 rfl

/-! ## C6 (corrected): a markerless first element yields a 500, not a 200 -/

/-- C6 counterexample: an owner reply whose replied-to message's first inline
element has neither a callback token nor a URL makes no relay call but
responds 500 (the `TypeError` from `undefined.split` reaches the catch),
not the claimed 200 success. -/
theorem C6_counterexample :
    handleWebhook ⟨"https:", "h", "/p", some "sec",
        .ok ⟨some ⟨⟨99, none, none, none⟩, 7, some "hi",
          some ⟨some ⟨[[⟨"x", none, none⟩]]⟩⟩⟩⟩⟩ "99" "tok" "sec"
      (fun _ => .respond true true "") =
      .ok (⟨500, Body.text "内部服务器错误"⟩, []) := rfl

/-- C6 amended: with neither a callback token (absent or empty) nor any URL
on the first inline element, no relay call is made and the handler responds
500; with no inline markup on the replied-to message at all, it proceeds
silently and responds 200 success with no call. -/
theorem C6_amended_no_marker (request : Request)
    (ownerUid botToken secretToken : String) (oracle : Oracle)
    (update : Update) (message : Message) (reply : RepliedMessage)
    (hAuth : request.secretHeader = some secretToken)
    (hBody : request.body = .ok update)
    (hMsg : update.message = some message)
    (hReply : message.reply_to_message = some reply)
    (hOwner : toString message.chat.id = ownerUid) :
    (∀ rm btn row, reply.reply_markup = some rm →
      rm.inline_keyboard.head? = some (btn :: row) →
      strTruthy btn.callback_data = false → btn.url = none →
      handleWebhook request ownerUid botToken secretToken oracle =
        .ok (⟨500, Body.text "内部服务器错误"⟩, [])) ∧
    (reply.reply_markup = none →
      handleWebhook request ownerUid botToken secretToken oracle =
        .ok (⟨200, Body.text "成功"⟩, [])) := by
  constructor
  · intro rm btn row hRm hKb hcb hurl
    have hExtract : extractSenderUid btn = .error () := by
      unfold extractSenderUid
      match hc : btn.callback_data with
      | none => simp [hurl]
      | some s =>
        rw [hc] at hcb
        have hs : s = "" := by simpa [strTruthy] using hcb
        subst hs
        simp [hurl]
    have htry : webhookTry message ownerUid botToken oracle = .error [] := by
      unfold webhookTry
      simp only [hReply, if_pos hOwner, hRm, hKb, List.head?_cons, hExtract]
    unfold handleWebhook
    rw [if_neg (by simp [hAuth]), hBody]
    simp only [hMsg, htry]
  · intro hRm
    have htry : webhookTry message ownerUid botToken oracle =
        .ok (⟨200, Body.text "成功"⟩, []) := by
      unfold webhookTry
      simp only [hReply, if_pos hOwner, hRm]
    unfold handleWebhook
    rw [if_neg (by simp [hAuth]), hBody]
    simp only [hMsg, htry]

/-- Closed instance of the amended C6, both conjuncts, at concrete replies. -/
theorem C6_amended_no_marker_witness :
    handleWebhook ⟨"https:", "h", "/p", some "sec",
        .ok ⟨some ⟨⟨99, none, none, none⟩, 7, some "hi",
          some ⟨some ⟨[[⟨"x", some "", none⟩]]⟩⟩⟩⟩⟩ "99" "tok" "sec"
      (fun _ => .respond true true "") =
      .ok (⟨500, Body.text "内部服务器错误"⟩, []) ∧
    handleWebhook ⟨"https:", "h", "/p", some "sec",
        .ok ⟨some ⟨⟨99, none, none, none⟩, 7, some "hi", some ⟨none⟩⟩⟩⟩ "99" "tok"
      "sec" (fun _ => .respond true true "") =
      .ok (⟨200, Body.text "成功"⟩, []) := by
  constructor
  · exact (C6_amended_no_marker
      ⟨"https:", "h", "/p", some "sec",
        .ok ⟨some ⟨⟨99, none, none, none⟩, 7, some "hi",
          some ⟨some ⟨[[⟨"x", some "", none⟩]]⟩⟩⟩⟩⟩
      "99" "tok" "sec" (fun _ => .respond true true "")
      ⟨some ⟨⟨99, none, none, none⟩, 7, some "hi",
        some ⟨some ⟨[[⟨"x", some "", none⟩]]⟩⟩⟩⟩
      ⟨⟨99, none, none, none⟩, 7, some "hi",
        some ⟨some ⟨[[⟨"x", some "", none⟩]]⟩⟩⟩
      ⟨some ⟨[[⟨"x", some "", none⟩]]⟩⟩
      rfl rfl rfl rfl (by decide)).1
      ⟨[[⟨"x", some "", none⟩]]⟩ ⟨"x", some "", none⟩ []
      rfl rfl (by decide) rfl
  · exact (C6_amended_no_marker
      ⟨"https:", "h", "/p", some "sec",
        .ok ⟨some ⟨⟨99, none, none, none⟩, 7, some "hi", some ⟨none⟩⟩⟩⟩
      "99" "tok" "sec" (fun _ => .respond true true "")
      ⟨some ⟨⟨99, none, none, none⟩, 7, some "hi", some ⟨none⟩⟩⟩
      ⟨⟨99, none, none, none⟩, 7, some "hi", some ⟨none⟩⟩
      ⟨none⟩
      rfl rfl rfl rfl (by decide)).2 rfl

/-! ## C10: the two source variants are observationally equivalent -/

/-- The two secret validators agree. -/
theorem «校验密钥_eq» (t : String) : «校验密钥» t = validateSecretToken t := rfl

/-- The two marker extractors agree. -/
theorem «提取发送者UID_eq» (btn : InlineButton) :
    «提取发送者UID» btn = extractSenderUid btn := rfl

/-- The two fresh-inbound copy-call builders agree. -/
theorem «复制消息调用_eq» (w : Bool) (m : Message) (o b : String) :
    «复制消息调用» w m o b = freshCopyCall w m o b := rfl

/-- The Chinese variant's non-reply code equals the English variant's up to
replacing the success text by `OK`. -/
theorem «处理非回复消息_eq» (m : Message) (o b : String) (orc : Oracle) :
    «处理非回复消息» m o b orc =
      (webhookNonReply m o b orc).map
        (fun p => ((⟨p.1.status, Body.text "OK"⟩ : Response), p.2)) := by
  unfold «处理非回复消息» webhookNonReply
  split
  · rfl
  · cases orc 0 with
    | fail msg => rfl
    | respond h r d =>
      cases h with
      | false =>
        cases orc 1 with
        | fail msg => rfl
        | respond h2 r2 d2 => rfl
      | true => rfl

/-- The Chinese variant's try-block body equals the English variant's up to
replacing the success text by `OK`. -/
theorem «处理Webhook主体_eq» (m : Message) (o b : String) (orc : Oracle) :
    «处理Webhook主体» m o b orc =
      (webhookTry m o b orc).map
        (fun p => ((⟨p.1.status, Body.text "OK"⟩ : Response), p.2)) := by
  unfold «处理Webhook主体» webhookTry
  cases hr : m.reply_to_message with
  | none => exact «处理非回复消息_eq» m o b orc
  | some reply =>
    simp only
    split
    · cases hm : reply.reply_markup with
      | none => rfl
      | some rm =>
        simp only
        cases hk : rm.inline_keyboard.head? with
        | none => rfl
        | some row =>
          simp only
          cases hrow : row.head? with
          | none => rfl
          | some btn =>
            simp only [«提取发送者UID_eq»]
            cases he : extractSenderUid btn with
            | error e => rfl
            | ok s =>
              simp only
              cases orc 0 with
              | fail msg => rfl
              | respond hh rr dd => rfl
    · exact «处理非回复消息_eq» m o b orc

/-- The Chinese variant's webhook handler equals the English variant's up to
replacing the body of 200 responses by `OK`. -/
theorem «处理Webhook_eq» (req : Request) (o b s : String) (orc : Oracle) :
    «处理Webhook» req o b s orc =
      (handleWebhook req o b s orc).map
        (fun p => ((⟨p.1.status,
          if p.1.status = 200 then Body.text "OK" else p.1.body⟩ : Response),
          p.2)) := by
  unfold «处理Webhook» handleWebhook
  by_cases hA : req.secretHeader = some s
  · rw [if_neg (by simp [hA]), if_neg (by simp [hA])]
    cases hb : req.body with
    | error e => rfl
    | ok update =>
      simp only
      cases hm : update.message with
      | none => rfl
      | some message =>
        simp only [«处理Webhook主体_eq»]
        cases ht : webhookTry message o b orc with
        | ok r =>
          have hres := webhookTry_ok_resp message o b orc r ht
          simp [Except.map, hres]
        | error calls => rfl
  · rw [if_pos (by simp [hA]), if_pos (by simp [hA])]
    rfl

/-- The two install handlers agree on status and calls. -/
theorem «安装Webhook_eq» (req : Request) (uid tok pre s : String) (orc : Oracle) :
    ((«安装Webhook» req uid tok pre s orc).1.status,
      («安装Webhook» req uid tok pre s orc).2) =
    ((handleInstall req uid tok pre s orc).1.status,
      (handleInstall req uid tok pre s orc).2) := by
  unfold «安装Webhook» handleInstall
  rw [«校验密钥_eq»]
  cases hv : validateSecretToken s with
  | false => rfl
  | true =>
    cases orc 0 with
    | fail msg => rfl
    | respond h r d => cases r <;> rfl

/-- The two uninstall handlers agree on status and calls. -/
theorem «卸载Webhook_eq» (tok s : String) (orc : Oracle) :
    ((«卸载Webhook» tok s orc).1.status, («卸载Webhook» tok s orc).2) =
    ((handleUninstall tok s orc).1.status, (handleUninstall tok s orc).2) := by
  unfold «卸载Webhook» handleUninstall
  rw [«校验密钥_eq»]
  cases hv : validateSecretToken s with
  | false => rfl
  | true =>
    cases orc 0 with
    | fail msg => rfl
    | respond h r d => cases r <;> rfl

/-- C10: for every request, configuration and remote behaviour, the two
source variants of the router — `handleRequest` and `处理请求` — propagate
the same exceptions, return responses with equal HTTP status codes, and
issue identical sequences of remote API calls. -/
theorem C10_variant_equivalence (request : Request) (config : Config)
    (oracle : Oracle) :
    («处理请求» request config oracle).map (fun p => (p.1.status, p.2)) =
      (handleRequest request config oracle).map (fun p => (p.1.status, p.2)) := by
  unfold «处理请求» handleRequest
  cases hI : matchTwoSegPath config.pre "install" request.pathname with
  | some p =>
    obtain ⟨uid, tok⟩ := p
    simp only [hI, Except.map]
    exact congrArg Except.ok («安装Webhook_eq» request uid tok config.pre
      config.secretToken oracle)
  | none =>
    cases hU : matchOneSegPath config.pre "uninstall" request.pathname with
    | some tok =>
      simp only [hI, hU, Except.map]
      exact congrArg Except.ok («卸载Webhook_eq» tok config.secretToken oracle)
    | none =>
      cases hW : matchTwoSegPath config.pre "webhook" request.pathname with
      | some p =>
        obtain ⟨uid, tok⟩ := p
        simp only [hI, hU, hW, «处理Webhook_eq»]
        cases hw : handleWebhook request uid tok config.secretToken oracle with
        | error e => simp only [hw, Except.map]
        | ok r => simp only [hw, Except.map]
      | none => simp only [hI, hU, hW, Except.map]

end Wegram
